import Mathlib

/-!
Verification of the stalkerAI research-orchestration pipeline.

Shallow embedding of the task router, planner fallback, executor result
collection, profile fusion (structure_profile_data) and report generation
from src/researcher.py, src/agents/planning_agent.py and
src/utils/common.py.  External collaborators (the text-generation model,
the scraper network calls) are modelled as explicit outcome parameters;
a dict key that is missing is modelled as Option.none.
-/

namespace StalkerAI

/-- Result of an external call: the payload, or the text of the raised
exception (caught by the surrounding try/except in the source). -/
inductive Outcome (α : Type) where
  | ok (val : α)
  | fail (msg : String)
deriving DecidableEq

def Outcome.isOk {α : Type} : Outcome α → Bool
  | Outcome.ok _ => true
  | Outcome.fail _ => false

/-! ## Python string primitives used by the source -/

/-- Python truthiness of an optional string: None and the empty string
are falsy. -/
def truthy : Option String → Bool
  | Option.none => false
  | Option.some s => !(s == "")

def lowerStr (s : String) : String := String.mk (s.toList.map Char.toLower)

def startsWithSeq : List Char → List Char → Bool
  | _, [] => true
  | [], _ :: _ => false
  | h :: t, p :: q => h == p && startsWithSeq t q

def containsSeq : List Char → List Char → Bool
  | [], pat => pat.isEmpty
  | h :: t, pat => startsWithSeq (h :: t) pat || containsSeq t pat

/-- Python substring test: pat in s. -/
def hasSub (s pat : String) : Bool := containsSeq s.toList pat.toList

/-- Helper for pyWords: accumulates the current word reversed. -/
def wordsAux : List Char → List Char → List String
  | [], cur => if cur.isEmpty then [] else [String.mk cur.reverse]
  | c :: rest, cur =>
    if c.isWhitespace then
      if cur.isEmpty then wordsAux rest []
      else String.mk cur.reverse :: wordsAux rest []
    else wordsAux rest (c :: cur)

/-- Python str.split() with no argument: split on whitespace runs,
dropping empty pieces. -/
def pyWords (s : String) : List String := wordsAux s.toList []

/-- Helper for splitOnChar: accumulates the current piece reversed. -/
def splitAux (c : Char) : List Char → List Char → List String
  | [], cur => [String.mk cur.reverse]
  | x :: rest, cur =>
    if x == c then String.mk cur.reverse :: splitAux c rest []
    else splitAux c rest (x :: cur)

/-- Python str.split(sep) for a one-character separator: keeps empty
pieces, never returns an empty list. -/
def splitOnChar (c : Char) (s : String) : List String := splitAux c s.toList []

/-- The character set of the strip(",.()\x22\x27") calls in the router. -/
def stripSet (c : Char) : Bool :=
  c == ',' || c == '.' || c == '(' || c == ')' || c == '"' || c == '\''

/-- Python str.strip(",.()\x22\x27"). -/
def stripChars (s : String) : String :=
  String.mk (((s.toList.dropWhile stripSet).reverse.dropWhile stripSet).reverse)

/-- Python str.strip() with no argument: trims whitespace at both ends. -/
def pyStrip (s : String) : String :=
  String.mk (((s.toList.dropWhile Char.isWhitespace).reverse.dropWhile
      Char.isWhitespace).reverse)

/-- Python split("/")[-1]. -/
def lastSeg (s : String) : String := (splitOnChar '/' s).getLastD s

/-! ## Router (src/researcher.py, execute_research_node lines 57-95) -/

inductive Tool where
  | scrape_linkedin
  | scrape_github
  | search_arxiv
  | search_tavily
deriving DecidableEq

structure Routed where
  tool : Tool
  input : String
deriving DecidableEq

/-- First word containing the LinkedIn URL pattern, stripped
(lines 66-70 of researcher.py; the inner membership test is
case-sensitive on the raw word, as in the source). -/
def linkedinExtract : List String → Option String
  | [] => Option.none
  | w :: rest =>
    if hasSub w "linkedin.com/in/" then Option.some (stripChars w)
    else linkedinExtract rest

/-- Token following the first word containing the github keyword, with
the last path segment taken when that token contains a slash
(lines 76-85 of researcher.py); none when no such word has a successor. -/
def githubExtract : List String → Option String
  | w :: next :: rest =>
    if hasSub (lowerStr w) "github" then
      let p := stripChars next
      Option.some (if hasSub p "/" then lastSeg p else p)
    else githubExtract (next :: rest)
  | _ => Option.none

def academicTerms : List String :=
  ["research", "paper", "publication", "academic", "arxiv"]

/-- Task-to-tool matching of execute_research_node (lines 57-95):
an ordered if/elif chain, first match wins. -/
def route (target_name task_description : String) : Routed :=
  if hasSub (lowerStr task_description) "linkedin.com/in/" then
    ⟨Tool.scrape_linkedin,
      (linkedinExtract (pyWords task_description)).getD task_description⟩
  else if hasSub (lowerStr task_description) "github" then
    ⟨Tool.scrape_github,
      (githubExtract (pyWords task_description)).getD task_description⟩
  else if academicTerms.any (fun t => hasSub (lowerStr task_description) t) then
    ⟨Tool.search_arxiv, target_name ++ " " ++ task_description⟩
  else
    ⟨Tool.search_tavily, target_name ++ " " ++ task_description⟩

/-! ## Planner (src/agents/planning_agent.py, generate_research_plan) -/

/-- Fallback plan returned from the except branch (lines 64-68). -/
def fallbackOnException (target_name : String) : List String :=
  ["Search for " ++ target_name ++ " online profile",
   target_name ++ " professional background",
   target_name ++ " career highlights"]

/-- Fallback plan substituted when the model output had no usable lines
(lines 51-56). -/
def fallbackOnEmpty (target_name : String) : List String :=
  [target_name ++ " LinkedIn profile",
   target_name ++ " GitHub profile",
   target_name ++ " recent work history",
   target_name ++ " notable projects or contributions"]

/-- Non-empty trimmed lines of the model response (line 46). -/
def usableLines (content : String) : List String :=
  ((splitOnChar '\n' content).map pyStrip).filter (fun q => !(q == ""))

/-- generate_research_plan as a function of the collaborator outcome.
The second component records whether a degradation warning/error was
logged (the only degraded flag the source emits). -/
def generate_research_plan (target_name : String) (llm : Outcome String) :
    List String × Bool :=
  match llm with
  | Outcome.fail _ => (fallbackOnException target_name, true)
  | Outcome.ok content =>
    let queries := usableLines content
    if queries.isEmpty then (fallbackOnEmpty target_name, true)
    else (queries, false)

/-- True when the collaborator raised or returned zero usable lines. -/
def collabFailedOrEmpty : Outcome String → Bool
  | Outcome.fail _ => true
  | Outcome.ok c => (usableLines c).isEmpty

/-- Distinguishes the two degraded branches: some true for the raised
exception, some false for the zero-usable-lines response, none when the
response was usable. -/
def fallbackKind : Outcome String → Option Bool
  | Outcome.fail _ => Option.some true
  | Outcome.ok c => if (usableLines c).isEmpty then Option.some false else Option.none

/-! ## Scraper payloads (src/scraper/linkedin_scraper.py lines 310-318,
src/scraper/github_scraper.py lines 137-200) and the fused profile
schema of structure_profile_data (src/utils/common.py lines 22-33).
A missing dict key is modelled as Option.none. -/

structure Experience where
  title : Option String
  company : Option String
  date_range : Option String
deriving DecidableEq

/-- A skill dict: LinkedIn skill entries are copied wholesale, GitHub
language skills carry name/category/source. -/
structure Skill where
  name : Option String
  category : Option String
  source : Option String
deriving DecidableEq

structure Repo where
  name : Option String
  description : Option String
  stars : Option Nat
  language : Option String
  url : Option String
  topics : List String
deriving DecidableEq

structure LinkedInData where
  success : Bool
  name : Option String
  headline : Option String
  experiences : List Experience
  skills : List Skill
  error : Option String
deriving DecidableEq

structure GitHubData where
  success : Bool
  name : Option String
  bio : Option String
  repositories : List Repo
  error : Option String
deriving DecidableEq

/-- A work_history entry built at common.py lines 52-57. -/
structure JobEntry where
  title : String
  company : String
  date_range : String
  source : String
deriving DecidableEq

/-- A projects entry built at common.py lines 84-92. -/
structure ProjectEntry where
  name : String
  description : String
  stars : Nat
  language : String
  url : String
  topics : List String
  source : String
deriving DecidableEq

structure Metadata where
  sources : List String
  success : Bool
  errors : Option (List String)
deriving DecidableEq

/-- The structured profile dict (common.py lines 22-33); the
last_updated timestamp is outside the embedded state. -/
structure StructuredData where
  name : Option String
  headline : Option String
  work_history : List JobEntry
  projects : List ProjectEntry
  skills : List Skill
  metadata : Metadata
deriving DecidableEq

/-- An argument of structure_profile_data: Python None (or another falsy
value), a truthy non-dict value, or a dict payload. -/
inductive SourceArg (α : Type) where
  | absent
  | nonDict
  | dict (d : α)
deriving DecidableEq

def liSucc : SourceArg LinkedInData → Bool
  | SourceArg.dict d => d.success
  | _ => false

def ghSucc : SourceArg GitHubData → Bool
  | SourceArg.dict d => d.success
  | _ => false

def mkJob (e : Experience) : JobEntry :=
  ⟨e.title.getD "Unknown Position", e.company.getD "Unknown Company",
   e.date_range.getD "", "linkedin"⟩

def mkProject (r : Repo) : ProjectEntry :=
  ⟨r.name.getD "Unnamed Repository", r.description.getD "", r.stars.getD 0,
   r.language.getD "Unknown", r.url.getD "", r.topics, "github"⟩

/-- The language filter at common.py line 98. -/
def langOk (l : Option String) : Bool :=
  match l with
  | Option.none => false
  | Option.some s => !(s == "") && !(s == "None") && !(s == "Unknown")

/-- The languages set of common.py lines 96-99, modelled as a
first-occurrence deduplicated list. -/
def repoLanguages (repos : List Repo) : List String :=
  repos.foldl
    (fun acc r =>
      match r.language with
      | Option.some s => if langOk r.language && !(acc.contains s) then acc ++ [s] else acc
      | Option.none => acc) []

def mkLangSkill (l : String) : Skill :=
  ⟨Option.some l, Option.some "Programming Language", Option.some "github"⟩

def s0 : StructuredData := ⟨Option.none, Option.none, [], [], [], ⟨[], false, Option.none⟩⟩

/-- LinkedIn processing of structure_profile_data (common.py lines
36-65).  The guard on experiences at line 50 is dropped: iterating an
empty list appends nothing, so it is behaviourally identical. -/
def liPhase (arg : SourceArg LinkedInData) (s : StructuredData) : StructuredData :=
  match arg with
  | SourceArg.dict li =>
    if li.success then
      let s1 := { s with metadata :=
        { s.metadata with sources := s.metadata.sources ++ ["linkedin"], success := true } }
      let s2 := if !(truthy s1.name) && truthy li.name then { s1 with name := li.name } else s1
      let s3 := { s2 with headline := li.headline }
      let s4 := { s3 with work_history := s3.work_history ++ li.experiences.map mkJob }
      if !li.skills.isEmpty then { s4 with skills := li.skills } else s4
    else s
  | _ => s

/-- GitHub processing of structure_profile_data (common.py lines
67-110). -/
def ghPhase (arg : SourceArg GitHubData) (s : StructuredData) : StructuredData :=
  match arg with
  | SourceArg.dict gh =>
    if gh.success then
      let s1 := { s with metadata :=
        { s.metadata with sources := s.metadata.sources ++ ["github"], success := true } }
      let s2 := if !(truthy s1.name) && truthy gh.name then { s1 with name := gh.name } else s1
      let s3 := if !(truthy s2.headline) && truthy gh.bio then { s2 with headline := gh.bio } else s2
      let s4 := { s3 with projects := s3.projects ++ gh.repositories.map mkProject }
      { s4 with skills := s4.skills ++ (repoLanguages gh.repositories).map mkLangSkill }
    else s
  | _ => s

/-- Modelled exception text for the AttributeError raised when a truthy
non-dict argument reaches the .get call at common.py line 117/119; the
claims never inspect its wording. -/
def attrErrMsg : String := "AttributeError: object has no attribute get"

/-- Error collection of common.py lines 116-122; raises (fail) on a
truthy non-dict argument. -/
def collectErrors (li : SourceArg LinkedInData) (gh : SourceArg GitHubData) :
    Outcome (List String) :=
  match li with
  | SourceArg.nonDict => Outcome.fail attrErrMsg
  | _ =>
    let m1 : List String :=
      match li with
      | SourceArg.dict d =>
        match d.error with
        | Option.some e => if e == "" then [] else ["LinkedIn error: " ++ e]
        | Option.none => []
      | _ => []
    match gh with
    | SourceArg.nonDict => Outcome.fail attrErrMsg
    | _ =>
      let m2 : List String :=
        match gh with
        | SourceArg.dict d =>
          match d.error with
          | Option.some e => if e == "" then [] else ["GitHub error: " ++ e]
          | Option.none => []
        | _ => []
      Outcome.ok (m1 ++ m2)

/-- Success recomputation and error recording of common.py lines
112-129, including the except branch catching the AttributeError of
collectErrors. -/
def finishPhase (liArg : SourceArg LinkedInData) (ghArg : SourceArg GitHubData)
    (s : StructuredData) : StructuredData :=
  let s1 := { s with metadata :=
    { s.metadata with success := !s.metadata.sources.isEmpty } }
  if s1.metadata.success then s1
  else
    match collectErrors liArg ghArg with
    | Outcome.ok msgs =>
      { s1 with metadata := { s1.metadata with errors := Option.some msgs } }
    | Outcome.fail m =>
      { s1 with metadata :=
        { s1.metadata with success := false, errors := Option.some [m] } }

/-- structure_profile_data (common.py lines 8-131): LinkedIn processed
first, then GitHub, then the success/errors bookkeeping. -/
def structure_profile_data (linkedin_data : SourceArg LinkedInData)
    (github_data : SourceArg GitHubData) : StructuredData :=
  finishPhase linkedin_data github_data (ghPhase github_data (liPhase linkedin_data s0))

/-! ## Executor result collection and fusion dispatch
(src/researcher.py, execute_research_node lines 112-171) -/

/-- A task paired with the outcome of its provider call; the payload
type is fixed by the tool that was routed. -/
inductive TR where
  | linkedin (o : Outcome LinkedInData)
  | github (o : Outcome GitHubData)
  | arxiv (o : Outcome (List String))
  | tavily (o : Outcome (List String))
deriving DecidableEq

/-- Ok when the provider call returned (the try branch at researcher.py
lines 119-144), false when it raised (lines 145-147). -/
def trOk : TR → Bool
  | TR.linkedin o => o.isOk
  | TR.github o => o.isOk
  | TR.arxiv o => o.isOk
  | TR.tavily o => o.isOk

/-- The executor loop (researcher.py lines 118-147): each task appends
exactly one entry, in input order, errors reified per task. -/
def execute (tasks : List TR) : List TR :=
  tasks.foldl (fun acc t => acc ++ [t]) []

def liOk : TR → Option LinkedInData
  | TR.linkedin (Outcome.ok d) => Option.some d
  | _ => Option.none

def ghOk : TR → Option GitHubData
  | TR.github (Outcome.ok d) => Option.some d
  | _ => Option.none

/-- One step of the scan at researcher.py lines 155-159: a successful
scrape_linkedin item overwrites the accumulator. -/
def liStep (acc : Option LinkedInData) (r : TR) : Option LinkedInData :=
  match liOk r with
  | Option.some d => Option.some d
  | Option.none => acc

/-- One step of the scan at researcher.py lines 155-159: a successful
scrape_github item overwrites the accumulator. -/
def ghStep (acc : Option GitHubData) (r : TR) : Option GitHubData :=
  match ghOk r with
  | Option.some d => Option.some d
  | Option.none => acc

/-- The scan at researcher.py lines 155-159: the last successful
scrape_linkedin result wins. -/
def selLi (rs : List TR) : Option LinkedInData :=
  rs.foldl liStep Option.none

/-- The scan at researcher.py lines 155-159: the last successful
scrape_github result wins. -/
def selGh (rs : List TR) : Option GitHubData :=
  rs.foldl ghStep Option.none

def argOfLi : Option LinkedInData → SourceArg LinkedInData
  | Option.some d => SourceArg.dict d
  | Option.none => SourceArg.absent

def argOfGh : Option GitHubData → SourceArg GitHubData
  | Option.some d => SourceArg.dict d
  | Option.none => SourceArg.absent

/-- Fusion dispatch (researcher.py lines 151-169): structure the data
only when at least one scraper result was collected. -/
def fuse (rs : List TR) : Option StructuredData :=
  match selLi rs, selGh rs with
  | Option.none, Option.none => Option.none
  | li, gh => Option.some (structure_profile_data (argOfLi li) (argOfGh gh))

/-- collected_data of execute_research_node: the per-task results plus
the optional data_structuring entry appended at lines 162-169. -/
def collectedData (tasks : List TR) : List TR × Option StructuredData :=
  (execute tasks, fuse (execute tasks))

/-! ## Report node (src/researcher.py, generate_report_node lines
173-296) and generate_person_report (lines 341-371) -/

structure ReportState where
  report : Option String
  error : Option String
  synthInvoked : Bool
deriving DecidableEq

def noDataMsg : String := "No data collected to generate report."

/-- generate_report_node as a function of the prior error, the
collected data and the reporting-model outcome; synthInvoked records
whether the external reporting call at lines 266-288 was reached. -/
def generate_report_node (collected : List TR × Option StructuredData)
    (priorError : Option String) (llm : Outcome String) : ReportState :=
  if truthy priorError then ⟨Option.none, priorError, false⟩
  else if collected.1.isEmpty && collected.2.isNone then
    ⟨Option.none, Option.some noDataMsg, false⟩
  else
    match llm with
    | Outcome.ok r => ⟨Option.some r, Option.none, true⟩
    | Outcome.fail e =>
      ⟨Option.none, Option.some ("Report generation failed: " ++ e), true⟩

/-- generate_person_report (researcher.py lines 360-371) applied to the
final pipeline state. -/
def generate_person_report (name : String) (st : ReportState) : String :=
  if truthy st.error then
    "# Error Generating Report for " ++ name ++ "\n\n" ++ st.error.getD ""
  else if !(truthy st.report) then
    "# No Report Generated for " ++ name ++
      "\n\nNo data could be collected or processed."
  else st.report.getD ""

/-! ## Executor and report-node lemmas -/

lemma foldl_append_id (l acc : List TR) :
    l.foldl (fun a t => a ++ [t]) acc = acc ++ l := by
  induction l generalizing acc with
  | nil => simp
  | cons x t ih => simp [List.foldl_cons, ih]

lemma execute_eq (tasks : List TR) : execute tasks = tasks := by
  simpa [execute] using foldl_append_id tasks []

lemma liOk_of_fail (r : TR) (h : trOk r = false) : liOk r = Option.none := by
  cases r <;> rename_i o <;> cases o <;> simp_all [trOk, liOk, Outcome.isOk]

lemma ghOk_of_fail (r : TR) (h : trOk r = false) : ghOk r = Option.none := by
  cases r <;> rename_i o <;> cases o <;> simp_all [trOk, ghOk, Outcome.isOk]

lemma selLi_filter (l : List TR) : selLi (l.filter trOk) = selLi l := by
  suffices h : ∀ (l : List TR) (acc : Option LinkedInData),
      (l.filter trOk).foldl liStep acc = l.foldl liStep acc by
    simpa [selLi] using h l Option.none
  intro l
  induction l with
  | nil => intro acc; rfl
  | cons x t ih =>
    intro acc
    by_cases hx : trOk x
    · rw [List.filter_cons_of_pos hx, List.foldl_cons, List.foldl_cons, ih]
    · have hx' : trOk x = false := by simpa using hx
      have hstep : liStep acc x = acc := by
        rw [liStep, liOk_of_fail x hx']
      rw [List.filter_cons_of_neg (by simpa using hx'), List.foldl_cons, hstep, ih]

lemma selGh_filter (l : List TR) : selGh (l.filter trOk) = selGh l := by
  suffices h : ∀ (l : List TR) (acc : Option GitHubData),
      (l.filter trOk).foldl ghStep acc = l.foldl ghStep acc by
    simpa [selGh] using h l Option.none
  intro l
  induction l with
  | nil => intro acc; rfl
  | cons x t ih =>
    intro acc
    by_cases hx : trOk x
    · rw [List.filter_cons_of_pos hx, List.foldl_cons, List.foldl_cons, ih]
    · have hx' : trOk x = false := by simpa using hx
      have hstep : ghStep acc x = acc := by
        rw [ghStep, ghOk_of_fail x hx']
      rw [List.filter_cons_of_neg (by simpa using hx'), List.foldl_cons, hstep, ih]

lemma fuse_filter (l : List TR) : fuse (l.filter trOk) = fuse l := by
  rw [fuse, fuse, selLi_filter, selGh_filter]

/-! ## Claim C7: executor failure isolation / Scenario D -/

/-- C7: the executor returns one result per executable task in input
order with the per-task status of its own provider call (so one failure
affects only its own entry); the concrete Scenario D run gives statuses
Ok, Error, Ok; and fusion depends only on the Ok results. -/
theorem executor_isolation (tasks : List TR) (i : Nat) :
    (execute tasks).length = tasks.length
    ∧ (execute tasks)[i]?.map trOk = tasks[i]?.map trOk
    ∧ (execute [TR.tavily (Outcome.ok ["d1"]), TR.github (Outcome.fail "boom"),
        TR.arxiv (Outcome.ok ["d2"])]).map trOk = [true, false, true]
    ∧ fuse (execute tasks) = fuse (tasks.filter trOk) := by
  have he := execute_eq tasks
  exact ⟨by rw [he], by rw [he], by decide, by rw [he, fuse_filter]⟩

/-! ## Claim C8: terminal no-data case / Scenario E -/

/-- C8 counterexample: a run whose only task errors has zero Ok results,
yet its collected list is non-empty, so the report node does not
short-circuit: the synthesizer is invoked and its narrative is returned
instead of a no-data report. -/
theorem report_zero_ok_cex :
    ((execute [TR.tavily (Outcome.fail "boom")]).filter trOk = [])
    ∧ (generate_report_node (collectedData [TR.tavily (Outcome.fail "boom")])
        Option.none (Outcome.ok "NARRATIVE")).synthInvoked = true
    ∧ (generate_report_node (collectedData [TR.tavily (Outcome.fail "boom")])
        Option.none (Outcome.ok "NARRATIVE")).report = Option.some "NARRATIVE" := by
  decide

/-- C8 (amended): the no-data short circuit fires exactly on an empty
collected-data list (zero executable tasks): then the synthesizer is
not invoked and the pipeline returns the explicit no-data error report;
with any non-empty result list, even all-Error, the report node
proceeds to synthesis. -/
theorem no_data_short_circuit (name : String) (llm : Outcome String)
    (tasks : List TR) :
    (tasks = [] →
      (generate_report_node (collectedData tasks) Option.none llm).synthInvoked = false
      ∧ (generate_report_node (collectedData tasks) Option.none llm).error
          = Option.some noDataMsg
      ∧ generate_person_report name
          (generate_report_node (collectedData tasks) Option.none llm)
          = "# Error Generating Report for " ++ name ++ "\n\n" ++ noDataMsg)
    ∧ (tasks ≠ [] →
      (generate_report_node (collectedData tasks) Option.none llm).synthInvoked = true) := by
  constructor
  · intro h; subst h
    have hnode : generate_report_node (collectedData []) Option.none llm
        = ⟨Option.none, Option.some noDataMsg, false⟩ := rfl
    rw [hnode]
    exact ⟨rfl, rfl, by simp [generate_person_report, truthy, noDataMsg]⟩
  · intro h
    obtain ⟨x, t, rfl⟩ : ∃ x t, tasks = x :: t := by
      cases tasks with
      | nil => simp at h
      | cons x t => exact ⟨x, t, rfl⟩
    have he := execute_eq (x :: t)
    cases llm <;> simp [generate_report_node, collectedData, he, truthy]

/-- C8 witness: the amended theorem applied at the empty task list and
at a concrete one-task list. -/
theorem no_data_short_circuit_witness :
    ((generate_report_node (collectedData ([] : List TR)) Option.none
        (Outcome.ok "N")).synthInvoked = false
      ∧ (generate_report_node (collectedData ([] : List TR)) Option.none
          (Outcome.ok "N")).error = Option.some noDataMsg
      ∧ generate_person_report "Jane"
          (generate_report_node (collectedData ([] : List TR)) Option.none
            (Outcome.ok "N"))
          = "# Error Generating Report for " ++ "Jane" ++ "\n\n" ++ noDataMsg)
    ∧ (generate_report_node (collectedData [TR.tavily (Outcome.fail "x")])
        Option.none (Outcome.ok "N")).synthInvoked = true :=
  ⟨(no_data_short_circuit "Jane" (Outcome.ok "N") []).1 rfl,
   (no_data_short_circuit "Jane" (Outcome.ok "N")
     [TR.tavily (Outcome.fail "x")]).2 (by decide)⟩

/-! ## Claim C9: synthesis fallback -/

def c9li : LinkedInData :=
  ⟨true, Option.some "Jane", Option.none, [], [], Option.none⟩

/-- C9 counterexample: with one Ok result collected and the external
narrative call failing, the pipeline returns the error-headed report
text, not a structured dump of the profile: the failure is surfaced as
an error, contradicting the claimed fallback. -/
theorem synthesis_failure_cex :
    trOk (TR.linkedin (Outcome.ok c9li)) = true
    ∧ generate_person_report "Jane"
        (generate_report_node (collectedData [TR.linkedin (Outcome.ok c9li)])
          Option.none (Outcome.fail "timeout"))
        = "# Error Generating Report for Jane\n\nReport generation failed: timeout" := by
  decide

/-- C9 (amended): for every run with a non-empty collected-data list
whose narrative-generation call fails, the report node stores no report
and the error "Report generation failed: ..." and the top level renders
an error-headed report containing that message; no structured profile
dump is substituted. -/
theorem synthesis_failure_error_report (name e : String) (tasks : List TR)
    (h : tasks ≠ []) :
    (generate_report_node (collectedData tasks) Option.none (Outcome.fail e)).report
        = Option.none
    ∧ (generate_report_node (collectedData tasks) Option.none (Outcome.fail e)).error
        = Option.some ("Report generation failed: " ++ e)
    ∧ generate_person_report name
        (generate_report_node (collectedData tasks) Option.none (Outcome.fail e))
        = "# Error Generating Report for " ++ name ++ "\n\n"
            ++ ("Report generation failed: " ++ e) := by
  obtain ⟨x, t, rfl⟩ : ∃ x t, tasks = x :: t := by
    cases tasks with
    | nil => simp at h
    | cons x t => exact ⟨x, t, rfl⟩
  have he := execute_eq (x :: t)
  have hne : (("Report generation failed: " ++ e) == "") = false := by
    by_cases hb : ("Report generation failed: " ++ e) = ""
    · exfalso
      have hl : ("Report generation failed: " ++ e).length
          = "Report generation failed: ".length + e.length := String.length_append ..
      rw [hb] at hl
      have h0 : ("" : String).length = 0 := rfl
      have h26 : "Report generation failed: ".length = 26 := rfl
      rw [h0, h26] at hl
      omega
    · simp [beq_iff_eq, hb]
  have hnode : generate_report_node (collectedData (x :: t)) Option.none
      (Outcome.fail e)
      = ⟨Option.none, Option.some ("Report generation failed: " ++ e), true⟩ := by
    simp [generate_report_node, collectedData, he, truthy]
  rw [hnode]
  exact ⟨rfl, rfl, by simp [generate_person_report, truthy, hne]⟩

/-- C9 witness: the amended theorem applied at a concrete one-Ok-result
run and a concrete failure message. -/
theorem synthesis_failure_error_report_witness :
    (generate_report_node (collectedData [TR.linkedin (Outcome.ok c9li)])
        Option.none (Outcome.fail "timeout")).error
      = Option.some ("Report generation failed: " ++ "timeout") :=
  (synthesis_failure_error_report "Jane" "timeout"
    [TR.linkedin (Outcome.ok c9li)] (by decide)).2.1

/-! ## Fusion lemmas -/

lemma foldl_liStep_filterMap (l : List TR) :
    ∀ acc, l.foldl liStep acc
      = (l.filterMap liOk).foldl (fun _ d => Option.some d) acc := by
  induction l with
  | nil => intro acc; rfl
  | cons x t ih =>
    intro acc
    cases hfx : liOk x with
    | none =>
      have hstep : liStep acc x = acc := by rw [liStep, hfx]
      rw [List.foldl_cons, hstep, ih, List.filterMap_cons_none hfx]
    | some d =>
      have hstep : liStep acc x = Option.some d := by rw [liStep, hfx]
      rw [List.foldl_cons, hstep, ih, List.filterMap_cons_some hfx, List.foldl_cons]

lemma foldl_ghStep_filterMap (l : List TR) :
    ∀ acc, l.foldl ghStep acc
      = (l.filterMap ghOk).foldl (fun _ d => Option.some d) acc := by
  induction l with
  | nil => intro acc; rfl
  | cons x t ih =>
    intro acc
    cases hfx : ghOk x with
    | none =>
      have hstep : ghStep acc x = acc := by rw [ghStep, hfx]
      rw [List.foldl_cons, hstep, ih, List.filterMap_cons_none hfx]
    | some d =>
      have hstep : ghStep acc x = Option.some d := by rw [ghStep, hfx]
      rw [List.foldl_cons, hstep, ih, List.filterMap_cons_some hfx, List.foldl_cons]

lemma perm_le_one_eq {α : Type} {l l' : List α} (h : l.Perm l')
    (hlen : l.length ≤ 1) : l = l' := by
  cases l with
  | nil => exact (List.perm_nil.mp h.symm).symm
  | cons a t =>
    cases t with
    | nil => exact List.singleton_perm.mp h
    | cons b u => simp only [List.length_cons] at hlen; omega

/-! ## Claim C1: fusion order independence -/

def ghA : GitHubData := ⟨true, Option.some "Alice", Option.none, [], Option.none⟩

def ghB : GitHubData := ⟨true, Option.some "Bob", Option.none, [], Option.none⟩

/-- C1 counterexample: two successful GitHub results with different
names form a fixed result set whose two orderings fuse to different
profiles (the later scrape_github item overwrites the earlier in the
selection scan), so fusion is not order-independent for every result
set. -/
theorem fuse_not_order_independent_cex :
    List.Perm [TR.github (Outcome.ok ghA), TR.github (Outcome.ok ghB)]
      [TR.github (Outcome.ok ghB), TR.github (Outcome.ok ghA)]
    ∧ fuse [TR.github (Outcome.ok ghA), TR.github (Outcome.ok ghB)]
        ≠ fuse [TR.github (Outcome.ok ghB), TR.github (Outcome.ok ghA)]
    ∧ (fuse [TR.github (Outcome.ok ghA), TR.github (Outcome.ok ghB)]).map
        StructuredData.name = Option.some (Option.some "Bob")
    ∧ (fuse [TR.github (Outcome.ok ghB), TR.github (Outcome.ok ghA)]).map
        StructuredData.name = Option.some (Option.some "Alice") := by
  exact ⟨by decide, by decide, by decide, by decide⟩

/-- C1 (amended): fusion is order-independent for every result set that
contains at most one successful result per scraper capability (at most
one Ok scrape_linkedin and at most one Ok scrape_github item): then
every permutation of the results fuses to the identical profile. -/
theorem fuse_perm_invariant (rs rs' : List TR) (hp : rs.Perm rs')
    (hl : (rs.filterMap liOk).length ≤ 1)
    (hg : (rs.filterMap ghOk).length ≤ 1) :
    fuse rs = fuse rs' := by
  have el : rs.filterMap liOk = rs'.filterMap liOk :=
    perm_le_one_eq (hp.filterMap liOk) hl
  have eg : rs.filterMap ghOk = rs'.filterMap ghOk :=
    perm_le_one_eq (hp.filterMap ghOk) hg
  have sl : selLi rs = selLi rs' := by
    rw [selLi, selLi, foldl_liStep_filterMap, foldl_liStep_filterMap, el]
  have sg : selGh rs = selGh rs' := by
    rw [selGh, selGh, foldl_ghStep_filterMap, foldl_ghStep_filterMap, eg]
  rw [fuse, fuse, sl, sg]

def li1 : LinkedInData :=
  ⟨true, Option.some "Ada", Option.some "CTO", [], [], Option.none⟩

def gh1 : GitHubData := ⟨true, Option.some "Bob", Option.some "dev", [], Option.none⟩

/-- C1 witness: the amended theorem applied to a concrete two-result
set, one per scraper, and its transposition. -/
theorem fuse_perm_invariant_witness :
    fuse [TR.linkedin (Outcome.ok li1), TR.github (Outcome.ok gh1)]
      = fuse [TR.github (Outcome.ok gh1), TR.linkedin (Outcome.ok li1)] :=
  fuse_perm_invariant _ _ (by decide) (by decide) (by decide)

lemma truthy_none : truthy Option.none = false := rfl

lemma liPhase_dict (li : LinkedInData) (h1 : li.success = true) :
    liPhase (SourceArg.dict li) s0 =
      ⟨if truthy li.name then li.name else Option.none, li.headline,
       li.experiences.map mkJob, [], li.skills,
       ⟨["linkedin"], true, Option.none⟩⟩ := by
  by_cases c5 : li.skills = [] <;> by_cases c1 : truthy li.name <;>
    simp [liPhase, s0, h1, c1, c5, List.isEmpty_iff, truthy_none]

lemma ghPhase_dict (gh : GitHubData) (h2 : gh.success = true)
    (nm hd : Option String) (w : List JobEntry) (sk : List Skill) :
    ghPhase (SourceArg.dict gh) ⟨nm, hd, w, [], sk, ⟨["linkedin"], true, Option.none⟩⟩ =
      ⟨if truthy nm then nm else if truthy gh.name then gh.name else nm,
       if truthy hd then hd else if truthy gh.bio then gh.bio else hd,
       w, gh.repositories.map mkProject,
       sk ++ (repoLanguages gh.repositories).map mkLangSkill,
       ⟨["linkedin", "github"], true, Option.none⟩⟩ := by
  by_cases c1 : truthy nm <;> by_cases c2 : truthy gh.name <;>
    by_cases c3 : truthy hd <;> by_cases c4 : truthy gh.bio <;>
      simp [ghPhase, h2, c1, c2, c3, c4]

lemma finishPhase_keep (a : SourceArg LinkedInData) (b : SourceArg GitHubData)
    (nm hd : Option String) (w : List JobEntry) (p : List ProjectEntry)
    (sk : List Skill) :
    finishPhase a b ⟨nm, hd, w, p, sk, ⟨["linkedin", "github"], true, Option.none⟩⟩ =
      ⟨nm, hd, w, p, sk, ⟨["linkedin", "github"], true, Option.none⟩⟩ := by
  simp [finishPhase]

/-- Closed form of structure_profile_data on two successful dict
payloads: LinkedIn fills first, GitHub only fills still-falsy scalars,
list fields are concatenations without cross-source deduplication. -/
lemma spd_dict_dict (li : LinkedInData) (gh : GitHubData)
    (h1 : li.success = true) (h2 : gh.success = true) :
    structure_profile_data (SourceArg.dict li) (SourceArg.dict gh) =
      ⟨if truthy li.name then li.name
          else if truthy gh.name then gh.name else Option.none,
       if truthy li.headline then li.headline
          else if truthy gh.bio then gh.bio else li.headline,
       li.experiences.map mkJob,
       gh.repositories.map mkProject,
       li.skills ++ (repoLanguages gh.repositories).map mkLangSkill,
       ⟨["linkedin", "github"], true, Option.none⟩⟩ := by
  rw [structure_profile_data, liPhase_dict li h1, ghPhase_dict gh h2, finishPhase_keep]
  by_cases c1 : truthy li.name <;> simp [c1, truthy_none]

/-! ## Claim C2: scalar-field priority -/

/-- C2: for two successful results, the fused name is the first truthy
(non-null, non-empty) value in priority order LinkedIn before GitHub,
and the fused headline likewise prefers the LinkedIn headline over the
GitHub bio; in particular when both sources supply a name the
LinkedIn value wins and GitHub never overwrites an already-set
scalar. -/
theorem scalar_priority_first_nonnull (li : LinkedInData) (gh : GitHubData)
    (h1 : li.success = true) (h2 : gh.success = true) :
    ((structure_profile_data (SourceArg.dict li) (SourceArg.dict gh)).name
      = if truthy li.name then li.name
          else if truthy gh.name then gh.name else Option.none)
    ∧ ((structure_profile_data (SourceArg.dict li) (SourceArg.dict gh)).headline
      = if truthy li.headline then li.headline
          else if truthy gh.bio then gh.bio else li.headline) := by
  rw [spd_dict_dict li gh h1 h2]
  exact ⟨rfl, rfl⟩

def c2li : LinkedInData :=
  ⟨true, Option.some "Ada Linked", Option.some "CTO at Acme", [], [], Option.none⟩

def c2gh : GitHubData :=
  ⟨true, Option.some "Ada G", Option.some "builds things", [], Option.none⟩

/-- C2 witness: both sources supply a name; the fused name is the
LinkedIn value. -/
theorem scalar_priority_first_nonnull_witness :
    truthy c2li.name = true ∧ truthy c2gh.name = true
    ∧ (structure_profile_data (SourceArg.dict c2li) (SourceArg.dict c2gh)).name
        = Option.some "Ada Linked" := by
  refine ⟨by decide, by decide, ?_⟩
  rw [(scalar_priority_first_nonnull c2li c2gh rfl rfl).1]
  decide

/-! ## Claim C3: list-field deduplication -/

def c3li : LinkedInData :=
  ⟨true, Option.none, Option.none, [],
   [⟨Option.some "Python", Option.none, Option.some "linkedin"⟩], Option.none⟩

def c3gh : GitHubData :=
  ⟨true, Option.none, Option.none,
   [⟨Option.some "pytools", Option.none, Option.none, Option.some "Python",
     Option.none, []⟩], Option.none⟩

/-- C3 counterexample: a LinkedIn skill named Python and a GitHub
repository language Python survive fusion as two entries with the same
natural key, so the fused skills list is not deduplicated by skill
name. -/
theorem skills_duplicate_key_cex :
    ¬ ((structure_profile_data (SourceArg.dict c3li) (SourceArg.dict c3gh)).skills.Pairwise
        (fun a b => a.name ≠ b.name))
    ∧ ((structure_profile_data (SourceArg.dict c3li) (SourceArg.dict c3gh)).skills.map
        Skill.name) = [Option.some "Python", Option.some "Python"] := by
  exact ⟨by decide, by decide⟩

/-- C3 (amended): no cross-source deduplication is performed: the fused
work history is exactly the LinkedIn experiences mapped to entries, the
projects are exactly the GitHub repositories mapped to entries, and the
skills are the LinkedIn skills followed by one entry per distinct
qualifying GitHub repository language; duplicate natural keys across
the two skill sources (and within a source) are kept. -/
theorem list_fields_concat_no_dedup (li : LinkedInData) (gh : GitHubData)
    (h1 : li.success = true) (h2 : gh.success = true) :
    ((structure_profile_data (SourceArg.dict li) (SourceArg.dict gh)).work_history
      = li.experiences.map mkJob)
    ∧ ((structure_profile_data (SourceArg.dict li) (SourceArg.dict gh)).projects
      = gh.repositories.map mkProject)
    ∧ ((structure_profile_data (SourceArg.dict li) (SourceArg.dict gh)).skills
      = li.skills ++ (repoLanguages gh.repositories).map mkLangSkill) := by
  rw [spd_dict_dict li gh h1 h2]
  exact ⟨rfl, rfl, rfl⟩

/-- C3 witness: the amended theorem applied to the concrete colliding
sources. -/
theorem list_fields_concat_no_dedup_witness :
    (structure_profile_data (SourceArg.dict c3li) (SourceArg.dict c3gh)).skills
      = c3li.skills ++ (repoLanguages c3gh.repositories).map mkLangSkill :=
  (list_fields_concat_no_dedup c3li c3gh rfl rfl).2.2

/-! ## Claim C10: fusion totality and schema invariant -/

/-- The profile-facing fields of the structured record: everything
except the metadata errors list. -/
def profileView (s : StructuredData) :
    Option String × Option String × List JobEntry × List ProjectEntry ×
      List Skill × List String × Bool :=
  (s.name, s.headline, s.work_history, s.projects, s.skills,
   s.metadata.sources, s.metadata.success)

lemma liPhase_skip (arg : SourceArg LinkedInData) (h : liSucc arg = false)
    (s : StructuredData) : liPhase arg s = s := by
  cases arg with
  | absent => rfl
  | nonDict => rfl
  | dict d =>
    have hd : d.success = false := by simpa [liSucc] using h
    simp [liPhase, hd]

lemma ghPhase_skip (arg : SourceArg GitHubData) (h : ghSucc arg = false)
    (s : StructuredData) : ghPhase arg s = s := by
  cases arg with
  | absent => rfl
  | nonDict => rfl
  | dict d =>
    have hd : d.success = false := by simpa [ghSucc] using h
    simp [ghPhase, hd]

lemma liPhase_sources (arg : SourceArg LinkedInData) (s : StructuredData) :
    (liPhase arg s).metadata.sources
      = s.metadata.sources ++ (if liSucc arg then ["linkedin"] else []) := by
  cases arg with
  | absent => simp [liPhase, liSucc]
  | nonDict => simp [liPhase, liSucc]
  | dict d =>
    by_cases hd : d.success
    · simp only [liPhase, liSucc, hd, if_true]
      split_ifs <;> rfl
    · simp [liPhase, liSucc, hd]

lemma ghPhase_sources (arg : SourceArg GitHubData) (s : StructuredData) :
    (ghPhase arg s).metadata.sources
      = s.metadata.sources ++ (if ghSucc arg then ["github"] else []) := by
  cases arg with
  | absent => simp [ghPhase, ghSucc]
  | nonDict => simp [ghPhase, ghSucc]
  | dict d =>
    by_cases hd : d.success
    · simp only [ghPhase, ghSucc, hd, if_true]
      split_ifs <;> rfl
    · simp [ghPhase, ghSucc, hd]

lemma liPhase_errors (arg : SourceArg LinkedInData) (s : StructuredData) :
    (liPhase arg s).metadata.errors = s.metadata.errors := by
  cases arg with
  | absent => rfl
  | nonDict => rfl
  | dict d =>
    by_cases hd : d.success
    · simp only [liPhase, hd, if_true]
      split_ifs <;> rfl
    · simp [liPhase, hd]

lemma ghPhase_errors (arg : SourceArg GitHubData) (s : StructuredData) :
    (ghPhase arg s).metadata.errors = s.metadata.errors := by
  cases arg with
  | absent => rfl
  | nonDict => rfl
  | dict d =>
    by_cases hd : d.success
    · simp only [ghPhase, hd, if_true]
      split_ifs <;> rfl
    · simp [ghPhase, hd]

lemma finish_success (a : SourceArg LinkedInData) (b : SourceArg GitHubData)
    (s : StructuredData) :
    (finishPhase a b s).metadata.success = !s.metadata.sources.isEmpty := by
  by_cases hs : s.metadata.sources.isEmpty
  · cases hc : collectErrors a b <;> simp [finishPhase, hs, hc]
  · simp [finishPhase, hs]

lemma finish_errors (a : SourceArg LinkedInData) (b : SourceArg GitHubData)
    (s : StructuredData) (h : s.metadata.errors = Option.none) :
    (finishPhase a b s).metadata.errors.isSome = s.metadata.sources.isEmpty := by
  by_cases hs : s.metadata.sources.isEmpty
  · cases hc : collectErrors a b <;> simp [finishPhase, hs, hc]
  · simp [finishPhase, hs, h]

lemma finish_view (a : SourceArg LinkedInData) (b : SourceArg GitHubData)
    (s : StructuredData) :
    profileView (finishPhase a b s)
      = (s.name, s.headline, s.work_history, s.projects, s.skills,
         s.metadata.sources, !s.metadata.sources.isEmpty) := by
  by_cases hs : s.metadata.sources.isEmpty
  · cases hc : collectErrors a b <;> simp [finishPhase, profileView, hs, hc]
  · simp [finishPhase, profileView, hs]

/-- C10: structure_profile_data is total by construction (it always
returns the full record schema and its embedded form can raise
nothing); its metadata success flag is true exactly when at least one
argument is a dict whose payload carries success, errors are recorded
exactly when no source succeeded, and an absent, non-dict or
unsuccessful source contributes nothing to the profile fields. -/
theorem fusion_totality_schema (liArg : SourceArg LinkedInData)
    (ghArg : SourceArg GitHubData) :
    ((structure_profile_data liArg ghArg).metadata.success
        = (liSucc liArg || ghSucc ghArg))
    ∧ ((structure_profile_data liArg ghArg).metadata.errors.isSome
        = !(structure_profile_data liArg ghArg).metadata.success)
    ∧ (liSucc liArg = false →
        profileView (structure_profile_data liArg ghArg)
          = profileView (structure_profile_data SourceArg.absent ghArg))
    ∧ (ghSucc ghArg = false →
        profileView (structure_profile_data liArg ghArg)
          = profileView (structure_profile_data liArg SourceArg.absent)) := by
  have hsrc : (ghPhase ghArg (liPhase liArg s0)).metadata.sources
      = (if liSucc liArg then ["linkedin"] else [])
        ++ (if ghSucc ghArg then ["github"] else []) := by
    rw [ghPhase_sources, liPhase_sources]
    rfl
  refine ⟨?_, ?_, ?_, ?_⟩
  · rw [structure_profile_data, finish_success, hsrc]
    by_cases h1 : liSucc liArg <;> by_cases h2 : ghSucc ghArg <;> simp [h1, h2]
  · rw [structure_profile_data, finish_errors _ _ _
      (by rw [ghPhase_errors, liPhase_errors]; rfl), finish_success, hsrc]
    by_cases h1 : liSucc liArg <;> by_cases h2 : ghSucc ghArg <;> simp [h1, h2]
  · intro h
    rw [structure_profile_data, structure_profile_data, finish_view, finish_view,
      liPhase_skip liArg h]
    rfl
  · intro h
    rw [structure_profile_data, structure_profile_data, finish_view, finish_view,
      ghPhase_skip ghArg h]
    rfl

def w10li : LinkedInData :=
  ⟨true, Option.some "W", Option.none, [], [], Option.none⟩

def w10gh : GitHubData := ⟨true, Option.some "W", Option.none, [], Option.none⟩

/-- C10 witness: the no-contribution implications applied at concrete
non-dict arguments. -/
theorem fusion_totality_schema_witness :
    (profileView (structure_profile_data SourceArg.nonDict (SourceArg.dict w10gh))
      = profileView (structure_profile_data SourceArg.absent (SourceArg.dict w10gh)))
    ∧ (profileView (structure_profile_data (SourceArg.dict w10li) SourceArg.nonDict)
      = profileView (structure_profile_data (SourceArg.dict w10li) SourceArg.absent)) :=
  ⟨(fusion_totality_schema SourceArg.nonDict (SourceArg.dict w10gh)).2.2.1 rfl,
   (fusion_totality_schema (SourceArg.dict w10li) SourceArg.nonDict).2.2.2 rfl⟩

/-! ## Claim C5: router rule 2 / Scenario A -/

/-- C5 counterexample: the Scenario A text (with the code-hosting
keyword written out as GitHub, as it appears in the source rule) does
route to the GitHub scraper, but its normalized input is the token right
after the keyword token, which is "profile", not "johndoe". -/
theorem router_scenario_a_cex :
    (route "John Doe" "Check out his GitHub profile at johndoe").tool = Tool.scrape_github
    ∧ (route "John Doe" "Check out his GitHub profile at johndoe").input ≠ "johndoe" := by
  decide

/-- C5 (amended): Scenario A routes to the GitHub scraper with
normalized input "profile" (the token immediately following the first
keyword-containing token); when that token is a URL its last path
segment is taken; and when the keyword token has no successor the
normalized input falls back to the raw text. -/
theorem router_github_rule_amended :
    route "John Doe" "Check out his GitHub profile at johndoe"
      = ⟨Tool.scrape_github, "profile"⟩
    ∧ route "John Doe" "profile github github.com/acme/johndoe"
      = ⟨Tool.scrape_github, "johndoe"⟩
    ∧ route "John Doe" "find his github"
      = ⟨Tool.scrape_github, "find his github"⟩ := by
  decide

/-! ## Claim C6: router rule 3 / Scenario B -/

/-- C6: the Scenario B text routes to the academic search with the goal
prepended to the raw text, and the rule table is ordered: a text
matching both the LinkedIn rule and the academic rule takes the earlier
LinkedIn rule. -/
theorem router_scenario_b :
    route "Jane Smith" "academic paper about transformers by Jane Smith"
      = ⟨Tool.search_arxiv, "Jane Smith academic paper about transformers by Jane Smith"⟩
    ∧ route "Jane Smith" "paper at linkedin.com/in/jsmith"
      = ⟨Tool.scrape_linkedin, "linkedin.com/in/jsmith"⟩ := by
  decide

/-! ## Claim C4: planner fallback -/

/-- C4 counterexample: two collaborator behaviours that both fall under
the claim (a raised error, and a response with zero usable lines) are
given the same goal yet produce different plans, because the source has
two distinct canned fallback lists. -/
theorem planner_fallback_not_identical_cex :
    collabFailedOrEmpty (Outcome.fail "x") = true
    ∧ collabFailedOrEmpty (Outcome.ok "") = true
    ∧ (generate_research_plan "Jane" (Outcome.fail "x")).1
        ≠ (generate_research_plan "Jane" (Outcome.ok "")).1 := by
  decide

/-- C4 (amended): whenever the collaborator raises or returns zero
usable lines, the plan is non-empty, a degradation warning is logged
(the only degraded flag the source emits), and the plan is identical
across repeated calls with the same goal and the same failure mode:
each of the two fallback branches is a fixed function of the goal. -/
theorem planner_fallback_deterministic (g : String) (r : Outcome String)
    (h : collabFailedOrEmpty r = true) :
    (generate_research_plan g r).1 ≠ []
    ∧ (generate_research_plan g r).2 = true
    ∧ ∀ r' : Outcome String, fallbackKind r' = fallbackKind r →
        (generate_research_plan g r').1 = (generate_research_plan g r).1 := by
  cases r with
  | fail e =>
    refine ⟨by simp [generate_research_plan, fallbackOnException], rfl, ?_⟩
    intro r' hr'
    cases r' with
    | fail e2 => rfl
    | ok c =>
      simp only [fallbackKind] at hr'
      split at hr' <;> simp_all
  | ok c =>
    have hc : (usableLines c).isEmpty = true := by
      simpa [collabFailedOrEmpty] using h
    refine ⟨?_, ?_, ?_⟩
    · simp [generate_research_plan, hc, fallbackOnEmpty]
    · simp [generate_research_plan, hc]
    · intro r' hr'
      cases r' with
      | fail e2 => simp [fallbackKind, hc] at hr'
      | ok c2 =>
        have h2 : (usableLines c2).isEmpty = true := by
          by_cases h2 : (usableLines c2).isEmpty
          · exact h2
          · simp [fallbackKind, hc, h2] at hr'
        simp [generate_research_plan, hc, h2]

/-- C4 witness: the amended theorem applied at a concrete goal and a
concrete raised-error outcome, with a second error outcome showing the
per-mode determinism. -/
theorem planner_fallback_deterministic_witness :
    (generate_research_plan "Jane" (Outcome.fail "boom")).1 ≠ []
    ∧ (generate_research_plan "Jane" (Outcome.fail "other")).1
        = (generate_research_plan "Jane" (Outcome.fail "boom")).1 :=
  ⟨(planner_fallback_deterministic "Jane" (Outcome.fail "boom") (by decide)).1,
   (planner_fallback_deterministic "Jane" (Outcome.fail "boom") (by decide)).2.2
     (Outcome.fail "other") (by decide)⟩

end StalkerAI
